import Mathlib

/-!
# Verification of the todo-app Task model and route handlers

Shallow embedding of `src/app/src/models/task.py` (the `Task` pydantic
model and `TaskManager`) and of `src/app/src/routes/main.py` (the
`create_task`, `update_task` and `delete_task` route handlers), together
with proofs of the specified properties.

Python strings are Lean `String`s, Python dictionaries are association
lists preserving insertion order, Python `datetime` values are records of
their calendar components, and exceptions are `Except` results.
-/

namespace TodoApp

/-! ## Python string trimming (`str.strip()` with no argument) -/

/-- The characters Python's default `str.strip()` removes (CPython's
unicode whitespace predicate): tab through carriage return
(U+0009 to U+000D), the file/group/record/unit separators (U+001C to
U+001F), space (U+0020), next line (U+0085), no-break space (U+00A0),
Ogham space mark (U+1680), the en-quad through hair-space range
(U+2000 to U+200A), line separator (U+2028), paragraph separator
(U+2029), narrow no-break space (U+202F), medium mathematical space
(U+205F) and ideographic space (U+3000). -/
def isPySpace (c : Char) : Bool :=
  (0x09 ≤ c.toNat && c.toNat ≤ 0x0d) ||
  (0x1c ≤ c.toNat && c.toNat ≤ 0x1f) ||
  c.toNat = 0x20 || c.toNat = 0x85 || c.toNat = 0xa0 ||
  c.toNat = 0x1680 ||
  (0x2000 ≤ c.toNat && c.toNat ≤ 0x200a) ||
  c.toNat = 0x2028 || c.toNat = 0x2029 || c.toNat = 0x202f ||
  c.toNat = 0x205f || c.toNat = 0x3000

/-- `str.strip()` on the character list: drop whitespace from both ends. -/
def pyStripList (l : List Char) : List Char :=
  ((l.dropWhile isPySpace).reverse.dropWhile isPySpace).reverse

/-- Python `s.strip()`. -/
def pyStrip (s : String) : String :=
  ⟨pyStripList s.data⟩

/-! ## Decimal and hexadecimal fixed-width rendering

`datetime.isoformat` zero-pads each component; `'%032x' % int` renders a
UUID.  `toDigitsFixed k n` is the `k`-digit zero-padded decimal rendering
of `n` (most significant digit first), `toHexFixed` its base-16
counterpart. -/

/-- The character of a decimal digit. -/
def digitChar : Nat → Char
  | 0 => '0' | 1 => '1' | 2 => '2' | 3 => '3' | 4 => '4'
  | 5 => '5' | 6 => '6' | 7 => '7' | 8 => '8' | 9 => '9'
  | _ => '*'

/-- The character of a hexadecimal digit (lowercase, as Python's `%x`). -/
def hexDigitChar : Nat → Char
  | 0 => '0' | 1 => '1' | 2 => '2' | 3 => '3' | 4 => '4'
  | 5 => '5' | 6 => '6' | 7 => '7' | 8 => '8' | 9 => '9'
  | 10 => 'a' | 11 => 'b' | 12 => 'c' | 13 => 'd' | 14 => 'e' | 15 => 'f'
  | _ => '*'

/-- Fixed-width zero-padded decimal rendering, most significant first. -/
def toDigitsFixed : Nat → Nat → List Char
  | 0, _ => []
  | k + 1, n => digitChar (n / 10 ^ k) :: toDigitsFixed k (n % 10 ^ k)

/-- Fixed-width zero-padded hexadecimal rendering, most significant first. -/
def toHexFixed : Nat → Nat → List Char
  | 0, _ => []
  | k + 1, n => hexDigitChar (n / 16 ^ k) :: toHexFixed k (n % 16 ^ k)

/-- Reading a decimal digit character back, `none` on a non-digit. -/
def charToDigit (c : Char) : Option Nat :=
  if c = '0' then some 0 else if c = '1' then some 1
  else if c = '2' then some 2 else if c = '3' then some 3
  else if c = '4' then some 4 else if c = '5' then some 5
  else if c = '6' then some 6 else if c = '7' then some 7
  else if c = '8' then some 8 else if c = '9' then some 9
  else none

/-- Parse exactly `k` decimal digits from the front of a list, folding
them onto `acc`; fails on a shorter list or a non-digit. -/
def parseFixed : Nat → Nat → List Char → Option (Nat × List Char)
  | 0, acc, l => some (acc, l)
  | _ + 1, _, [] => none
  | k + 1, acc, c :: cs =>
    match charToDigit c with
    | some d => parseFixed k (acc * 10 + d) cs
    | none => none

/-- Expect one given character at the front of the list. -/
def expectChar (c : Char) : List Char → Option (List Char)
  | [] => none
  | x :: xs => if x = c then some xs else none

/-! ### Rendering / parsing round-trip lemmas -/

theorem charToDigit_digitChar {d : Nat} (h : d < 10) :
    charToDigit (digitChar d) = some d := by
  interval_cases d <;> rfl

theorem toDigitsFixed_length (k n : Nat) : (toDigitsFixed k n).length = k := by
  induction k generalizing n with
  | zero => rfl
  | succ k ih => simp [toDigitsFixed, ih]

theorem toHexFixed_length (k n : Nat) : (toHexFixed k n).length = k := by
  induction k generalizing n with
  | zero => rfl
  | succ k ih => simp [toHexFixed, ih]

theorem parseFixed_toDigitsFixed (k : Nat) :
    ∀ (n acc : Nat) (rest : List Char), n < 10 ^ k →
      parseFixed k acc (toDigitsFixed k n ++ rest) = some (acc * 10 ^ k + n, rest) := by
  induction k with
  | zero =>
    intro n acc rest hn
    have : n = 0 := by simpa using Nat.lt_one_iff.mp (by simpa using hn)
    subst this
    simp [toDigitsFixed, parseFixed]
  | succ k ih =>
    intro n acc rest hn
    have hdiv : n / 10 ^ k < 10 := by
      apply Nat.div_lt_of_lt_mul
      calc n < 10 ^ (k + 1) := hn
        _ = 10 ^ k * 10 := by rw [pow_succ]
    have hmod : n % 10 ^ k < 10 ^ k := Nat.mod_lt _ (Nat.pos_pow_of_pos k (by norm_num))
    simp only [toDigitsFixed, List.cons_append, parseFixed,
      charToDigit_digitChar hdiv, List.append_eq]
    rw [ih (n % 10 ^ k) (acc * 10 + n / 10 ^ k) rest hmod]
    congr 2
    have := Nat.div_add_mod n (10 ^ k)
    calc (acc * 10 + n / 10 ^ k) * 10 ^ k + n % 10 ^ k
        = acc * (10 ^ k * 10) + (10 ^ k * (n / 10 ^ k) + n % 10 ^ k) := by ring
      _ = acc * 10 ^ (k + 1) + n := by rw [this, pow_succ]

/-! ### Facts about `pyStrip` -/

theorem pyStripList_eq_rdropWhile (l : List Char) :
    pyStripList l = List.rdropWhile isPySpace (l.dropWhile isPySpace) := rfl

theorem head_dropWhile_false {α : Type} (p : α → Bool) :
    ∀ (l : List α) {a : α} {s : List α}, l.dropWhile p = a :: s → p a = false := by
  intro l
  induction l with
  | nil =>
    intro a s h
    simp [List.dropWhile] at h
  | cons c cs ih =>
    intro a s h
    rw [List.dropWhile_cons] at h
    by_cases hc : p c
    · rw [if_pos hc] at h
      exact ih h
    · rw [if_neg hc] at h
      simp only [List.cons.injEq] at h
      obtain ⟨rfl, -⟩ := h
      simpa using hc

theorem pyStripList_idem (l : List Char) :
    pyStripList (pyStripList l) = pyStripList l := by
  rw [pyStripList_eq_rdropWhile, pyStripList_eq_rdropWhile]
  have hds : List.dropWhile isPySpace
      (List.rdropWhile isPySpace (l.dropWhile isPySpace)) =
      List.rdropWhile isPySpace (l.dropWhile isPySpace) := by
    obtain ⟨t, ht⟩ := List.rdropWhile_prefix isPySpace (l.dropWhile isPySpace)
    cases hm : List.rdropWhile isPySpace (l.dropWhile isPySpace) with
    | nil => simp
    | cons a m =>
      rw [hm] at ht
      have hcons : List.dropWhile isPySpace l = a :: (m ++ t) := by
        rw [← ht]
        simp
      have ha := head_dropWhile_false isPySpace l hcons
      rw [List.dropWhile_cons, if_neg (by simp [ha])]
  rw [hds, List.rdropWhile_idempotent]

theorem pyStrip_idem (s : String) : pyStrip (pyStrip s) = pyStrip s :=
  congrArg String.mk (pyStripList_idem s.data)

theorem pyStrip_empty : pyStrip "" = "" := rfl

/-! ## Python `datetime` (`datetime.datetime`)

Modelled from the Python standard library as the record of calendar
components the `Task` model reads and writes through `isoformat` /
`fromisoformat`. -/

/-- A Python `datetime.datetime` value (naive, no timezone, as produced
by `datetime.now()`). -/
structure DateTime where
  year : Nat
  month : Nat
  day : Nat
  hour : Nat
  minute : Nat
  second : Nat
  microsecond : Nat
deriving DecidableEq, Repr

/-- The component ranges Python's `datetime` constructor enforces. -/
def DateTime.valid (d : DateTime) : Bool :=
  1 ≤ d.year && d.year ≤ 9999 && 1 ≤ d.month && d.month ≤ 12 &&
  1 ≤ d.day && d.day ≤ 31 && d.hour ≤ 23 && d.minute ≤ 59 &&
  d.second ≤ 59 && d.microsecond ≤ 999999

/-- Modelled from the spec: Python `datetime.isoformat()` — the ISO-8601
rendering `YYYY-MM-DDTHH:MM:SS` with a `.ffffff` microsecond suffix
exactly when the microsecond component is nonzero. -/
def DateTime.isoformat (d : DateTime) : String :=
  ⟨toDigitsFixed 4 d.year ++ ('-' :: (toDigitsFixed 2 d.month ++
   ('-' :: (toDigitsFixed 2 d.day ++ ('T' :: (toDigitsFixed 2 d.hour ++
   (':' :: (toDigitsFixed 2 d.minute ++ (':' :: (toDigitsFixed 2 d.second ++
   (if d.microsecond = 0 then [] else '.' :: toDigitsFixed 6 d.microsecond)))))))))))⟩

/-- The optional `.ffffff` tail of an ISO string: absent means zero
microseconds. -/
def parseMicro : List Char → Option Nat
  | [] => some 0
  | c :: rest =>
    if c = '.' then
      match parseFixed 6 0 rest with
      | some (us, []) => some us
      | _ => none
    else none

/-- Modelled from the spec: Python `datetime.fromisoformat` on the
strings `isoformat` produces — parse the components positionally and
range-check them; `none` models the `ValueError` Python raises. -/
def parseIso (l : List Char) : Option DateTime :=
  (parseFixed 4 0 l).bind fun y1 =>
  (expectChar '-' y1.2).bind fun l1 =>
  (parseFixed 2 0 l1).bind fun mo1 =>
  (expectChar '-' mo1.2).bind fun l2 =>
  (parseFixed 2 0 l2).bind fun d1 =>
  (expectChar 'T' d1.2).bind fun l3 =>
  (parseFixed 2 0 l3).bind fun h1 =>
  (expectChar ':' h1.2).bind fun l4 =>
  (parseFixed 2 0 l4).bind fun mi1 =>
  (expectChar ':' mi1.2).bind fun l5 =>
  (parseFixed 2 0 l5).bind fun s1 =>
  (parseMicro s1.2).bind fun us =>
  let dt : DateTime := ⟨y1.1, mo1.1, d1.1, h1.1, mi1.1, s1.1, us⟩
  if dt.valid then some dt else none

/-- Python `datetime.fromisoformat(s)`, as an `Option`. -/
def fromisoformat (s : String) : Option DateTime :=
  parseIso s.data

theorem parseFixed_toDigitsFixed0 {k n : Nat} {rest : List Char}
    (h : n < 10 ^ k) :
    parseFixed k 0 (toDigitsFixed k n ++ rest) = some (n, rest) := by
  rw [parseFixed_toDigitsFixed k n 0 rest h]
  simp

theorem parseFixed_toDigitsFixed_nil {k n : Nat} (h : n < 10 ^ k) :
    parseFixed k 0 (toDigitsFixed k n) = some (n, []) := by
  have := @parseFixed_toDigitsFixed0 k n [] h
  simpa using this

theorem fromisoformat_isoformat (d : DateTime) (h : d.valid = true) :
    fromisoformat d.isoformat = some d := by
  have hb := h
  simp only [DateTime.valid, Bool.and_eq_true, decide_eq_true_eq] at hb
  obtain ⟨⟨⟨⟨⟨⟨⟨⟨⟨hy1, hy2⟩, hm1⟩, hm2⟩, hd1⟩, hd2⟩, hh⟩, hmi⟩, hs⟩, hus⟩ := hb
  have hmicro : parseMicro
      (if d.microsecond = 0 then [] else '.' :: toDigitsFixed 6 d.microsecond) =
      some d.microsecond := by
    by_cases h0 : d.microsecond = 0
    · simp [h0, parseMicro]
    · rw [if_neg h0]
      have hp := parseFixed_toDigitsFixed_nil
        (show d.microsecond < 10 ^ 6 by omega)
      simp [parseMicro, hp]
  simp [fromisoformat, DateTime.isoformat, parseIso, expectChar, hmicro, h,
    parseFixed_toDigitsFixed0 (show d.year < 10 ^ 4 by omega),
    parseFixed_toDigitsFixed0 (show d.month < 10 ^ 2 by omega),
    parseFixed_toDigitsFixed0 (show d.day < 10 ^ 2 by omega),
    parseFixed_toDigitsFixed0 (show d.hour < 10 ^ 2 by omega),
    parseFixed_toDigitsFixed0 (show d.minute < 10 ^ 2 by omega),
    parseFixed_toDigitsFixed0 (show d.second < 10 ^ 2 by omega)]

/-! ## Python values and dictionaries

A Python dictionary is an insertion-ordered association list; the values
the task code stores or receives are strings, booleans, `datetime`
objects, numbers and `None`. -/

/-- A Python value as it appears in the task dictionaries and JSON
request bodies. -/
inductive PyVal where
  | str (s : String)
  | bool (b : Bool)
  | dt (d : DateTime)
  | int (n : Int)
  | none
deriving DecidableEq, Repr

/-- A Python dictionary with string keys, in insertion order. -/
def Dict := List (String × PyVal)

instance : DecidableEq Dict :=
  inferInstanceAs (DecidableEq (List (String × PyVal)))

instance : Repr Dict :=
  inferInstanceAs (Repr (List (String × PyVal)))

/-- `data.get(k)` / `k in data`: the first binding of `k`. -/
def Dict.get (d : Dict) (k : String) : Option PyVal :=
  match d with
  | [] => Option.none
  | (k0, v) :: rest => if k0 = k then some v else Dict.get rest k

/-- `data[k] = v` on a key already present: replace the value in place,
keeping insertion order (Python dict assignment). -/
def Dict.set (d : Dict) (k : String) (v : PyVal) : Dict :=
  match d with
  | [] => [(k, v)]
  | (k0, v0) :: rest =>
    if k0 = k then (k0, v) :: rest else (k0, v0) :: Dict.set rest k v

/-- The exceptions the task code raises: pydantic's `ValidationError`
(a distinct error kind wrapping the validator's message) and the
`ValueError` of `datetime.fromisoformat` on an unparsable string. -/
inductive PyErr where
  | validationError (msg : String)
  | valueError (msg : String)
deriving DecidableEq, Repr

/-! ## The `Task` model (`src/app/src/models/task.py`) -/

/-- A validated `Task` instance: the four pydantic fields. -/
structure Task where
  id : String
  description : String
  completed : Bool
  created_at : DateTime
deriving DecidableEq, Repr

/-- The `validate_description` field validator: reject an empty or
whitespace-only description, store the stripped text. -/
def Task.validate_description (v : String) : Except PyErr String :=
  if v = "" || pyStrip v = "" then
    .error (.validationError "Task description cannot be empty or whitespace-only")
  else
    .ok (pyStrip v)

/-- The full pydantic validation of the `description` field: the
declarative `min_length=1` constraint runs before the custom
validator. -/
def descriptionField (v : String) : Except PyErr String :=
  if v.length < 1 then
    .error (.validationError "String should have at least 1 character")
  else
    Task.validate_description v

/-- `Task(id=…, description=…, completed=…, created_at=…)`: pydantic
construction.  `completed` and `created_at` are optional; their defaults
are `False` and `datetime.now()` (the current time `now` is passed in
explicitly, as the embedding is pure). -/
def Task.build (now : DateTime) (idv description : String)
    (completed : Option Bool) (created_at : Option DateTime) :
    Except PyErr Task :=
  match descriptionField description with
  | .error e => .error e
  | .ok desc =>
    .ok ⟨idv, desc, completed.getD false, created_at.getD now⟩

/-- `task.to_dict()`. -/
def Task.to_dict (t : Task) : Dict :=
  [("id", .str t.id),
   ("description", .str t.description),
   ("completed", .bool t.completed),
   ("created_at", .str t.created_at.isoformat)]

/-- Pydantic's reading of the optional boolean `completed` keyword. -/
def readCompleted (data : Dict) : Except PyErr (Option Bool) :=
  match data.get "completed" with
  | Option.none => .ok Option.none
  | some (.bool b) => .ok (some b)
  | some _ => .error (.validationError "Input should be a valid boolean")

/-- Pydantic's reading of the optional `created_at` keyword: a datetime
object, or an ISO-8601 string pydantic parses itself. -/
def readCreatedAt (data : Dict) : Except PyErr (Option DateTime) :=
  match data.get "created_at" with
  | Option.none => .ok Option.none
  | some (.dt d) => .ok (some d)
  | some (.str s) =>
    (match fromisoformat s with
     | some d => .ok (some d)
     | Option.none => .error (.validationError "Input should be a valid datetime"))
  | some _ => .error (.validationError "Input should be a valid datetime")

/-- `cls(**data)` inside `from_dict`: pydantic reads the constructor
arguments from the dictionary.  `id` and `description` are required
strings, `completed` an optional boolean, `created_at` an optional
`datetime` (pydantic also accepts an ISO string for a datetime field);
unknown keys are ignored. -/
def taskFromKwargs (now : DateTime) (data : Dict) : Except PyErr Task :=
  match data.get "id" with
  | some (.str idv) =>
    (match data.get "description" with
     | some (.str desc) =>
       (match readCompleted data with
        | .error e => .error e
        | .ok comp =>
          (match readCreatedAt data with
           | .error e => .error e
           | .ok created => Task.build now idv desc comp created))
     | some _ => .error (.validationError "Input should be a valid string")
     | Option.none => .error (.validationError "Field required"))
  | some _ => .error (.validationError "Input should be a valid string")
  | Option.none => .error (.validationError "Field required")

/-- `Task.from_dict(data)`.  The Python method first mutates its
argument — when `data['created_at']` is a string it is replaced by the
parsed datetime — and then calls `cls(**data)`.  The embedding returns
the constructed task (or the raised exception) together with the
dictionary as the caller sees it afterwards. -/
def Task.from_dict (now : DateTime) (data : Dict) :
    Except PyErr Task × Dict :=
  match data.get "created_at" with
  | some (.str s) =>
    (match fromisoformat s with
     | some d =>
       let data2 := data.set "created_at" (.dt d)
       (taskFromKwargs now data2, data2)
     | Option.none =>
       (.error (.valueError "Invalid isoformat string"), data))
  | _ => (taskFromKwargs now data, data)

/-! ## `TaskManager` -/

/-- The CPython `uuid.uuid4()` integer: 128 random bits with the
variant field (bits 62–63) forced to `10₂` and the version field
(bits 76–79) forced to `4`, as `uuid.py` does before constructing the
`UUID`.  `r` stands for the output of the random source. -/
def uuid4Int (r : Nat) : Nat :=
  let x := r % 2 ^ 128
  let x := x % 2 ^ 62 + 2 * 2 ^ 62 + x / 2 ^ 64 * 2 ^ 64
  x % 2 ^ 76 + 4 * 2 ^ 76 + x / 2 ^ 80 * 2 ^ 80

/-- `str(uuid.UUID(...))`: the 32 hex digits of the 128-bit integer in
five hyphen-separated groups of 8, 4, 4, 4 and 12 digits. -/
def uuidStr (n : Nat) : String :=
  ⟨toHexFixed 8 (n / 2 ^ 96) ++
   ('-' :: (toHexFixed 4 (n / 2 ^ 80 % 2 ^ 16) ++
   ('-' :: (toHexFixed 4 (n / 2 ^ 64 % 2 ^ 16) ++
   ('-' :: (toHexFixed 4 (n / 2 ^ 48 % 2 ^ 16) ++
   ('-' :: toHexFixed 12 (n % 2 ^ 48))))))))⟩

/-- `TaskManager.generate_task_id()`: `str(uuid.uuid4())`, as a function
of the 128 random bits `r` drawn by `uuid4`. -/
def generate_task_id (r : Nat) : String :=
  uuidStr (uuid4Int r)

/-- `TaskManager.create_task(description)`: generate an id, delegate to
`Task` construction.  `r` is the randomness consumed by
`generate_task_id`, `now` the current time. -/
def create_task (r : Nat) (now : DateTime) (description : String) :
    Except PyErr Task :=
  Task.build now (generate_task_id r) description Option.none Option.none

/-- `TaskManager.validate_task_description(description)`: the
non-throwing boolean check. -/
def validate_task_description (description : String) : Bool :=
  !(description = "") && !(pyStrip description = "")

/-! ## Route handlers (`src/app/src/routes/main.py`)

A handler's inputs are the request facts it reads: whether the
`Content-Type` header contains `application/json` (`ctJson`), Flask's
`request.is_json`, the parsed JSON body (`Option Dict`, `Option.none`
when `get_json()` yields `None`), the `description` form field, the path
parameter, and — for task creation — the randomness and clock consumed
by `TaskManager`.  A response is a status code with either a JSON body
or a rendered `index.html` page context. -/

/-- What a handler returns: `jsonify(...)` output or a rendered template
with its `error` / `success` context. -/
inductive RespBody where
  | json (d : Dict)
  | page (template : String) (error : Option String) (success : Option String)
deriving DecidableEq, Repr

/-- An HTTP response: status code and body. -/
structure Response where
  status : Nat
  body : RespBody
deriving DecidableEq, Repr

/-- The POST `/api/tasks` handler (`create_task` in `main.py`). -/
def create_task_route (ctJson isJson : Bool) (jsonBody : Option Dict)
    (formDescription : Option String) (r : Nat) (now : DateTime) : Response :=
  if ctJson then
    if !isJson then
      ⟨400, .json [("error", .str "Content-Type must be application/json")]⟩
    else
      match jsonBody with
      | Option.none => ⟨400, .json [("error", .str "Request body is required")]⟩
      | some data =>
        if data = ([] : Dict) then
          ⟨400, .json [("error", .str "Request body is required")]⟩
        else
          match data.get "description" with
          | Option.none =>
            ⟨400, .json [("error", .str "Description field is required")]⟩
          | some (.str description) =>
            if pyStrip description = "" then
              ⟨400, .json [("error",
                .str "Description cannot be empty or whitespace only")]⟩
            else
              (match create_task r now description with
               | .ok task => ⟨201, .json task.to_dict⟩
               | .error (.validationError m) =>
                 ⟨400, .json [("error", .str ("Validation error: " ++ m))]⟩
               | .error (.valueError _) =>
                 ⟨500, .json [("error", .str "Internal server error")]⟩)
          | some _ =>
            ⟨400, .json [("error", .str "Description must be a string")]⟩
  else
    let description := pyStrip (formDescription.getD "")
    if description = "" then
      ⟨400, .page "index.html" (some "Please enter a task description") Option.none⟩
    else
      match create_task r now description with
      | .ok _ =>
        ⟨201, .page "index.html" Option.none
          (some ("Task \"" ++ description ++ "\" added successfully"))⟩
      | .error (.validationError m) =>
        ⟨400, .page "index.html" (some ("Validation error: " ++ m)) Option.none⟩
      | .error (.valueError _) =>
        ⟨500, .page "index.html"
          (some "An error occurred while adding the task") Option.none⟩

/-- The PUT `/api/tasks/<task_id>` handler (`update_task`). -/
def update_task_route (task_id : String) (isJson : Bool)
    (jsonBody : Option Dict) : Response :=
  if task_id = "" || pyStrip task_id = "" then
    ⟨400, .json [("error", .str "Task ID is required")]⟩
  else if !isJson then
    ⟨400, .json [("error", .str "Content-Type must be application/json")]⟩
  else
    match jsonBody with
    | Option.none => ⟨400, .json [("error", .str "Request body is required")]⟩
    | some data =>
      if data = ([] : Dict) then
        ⟨400, .json [("error", .str "Request body is required")]⟩
      else
        match data.get "completed" with
        | Option.none =>
          ⟨400, .json [("error", .str "Completed field is required")]⟩
        | some (.bool completed) =>
          ⟨200, .json [("id", .str task_id), ("completed", .bool completed),
            ("message", .str "Task updated successfully")]⟩
        | some _ =>
          ⟨400, .json [("error", .str "Completed must be a boolean value")]⟩

/-- The DELETE `/api/tasks/<task_id>` handler (`delete_task`). -/
def delete_task_route (task_id : String) : Response :=
  if task_id = "" || pyStrip task_id = "" then
    ⟨400, .json [("error", .str "Task ID is required")]⟩
  else
    ⟨200, .json [("id", .str task_id),
      ("message", .str "Task deleted successfully")]⟩

/-! ## Helper lemmas -/

/-- A concrete timestamp used by the concrete-input witnesses. -/
def dt0 : DateTime := ⟨2024, 1, 2, 3, 4, 5, 0⟩

theorem str_ne_empty_length {s : String} (h : s ≠ "") : ¬ s.length < 1 := by
  intro hlt
  apply h
  cases s with
  | mk l =>
    cases l with
    | nil => rfl
    | cons c cs => simp [String.length] at hlt

theorem pyStrip_ne_empty_ne {d : String} (h : pyStrip d ≠ "") : d ≠ "" := by
  intro h0
  rw [h0] at h
  exact h pyStrip_empty

theorem generate_task_id_length (r : Nat) :
    (generate_task_id r).length = 36 := by
  simp [generate_task_id, uuidStr, String.length, toHexFixed_length]

theorem generate_task_id_ne_empty (r : Nat) : generate_task_id r ≠ "" := by
  intro h
  have := generate_task_id_length r
  rw [h] at this
  simp [String.length] at this

theorem descriptionField_ok {d : String} (h : pyStrip d ≠ "") :
    descriptionField d = .ok (pyStrip d) := by
  have hne := pyStrip_ne_empty_ne h
  simp [descriptionField, Task.validate_description,
    str_ne_empty_length hne, hne, h]

theorem descriptionField_error {d : String} (h : pyStrip d = "") :
    ∃ m, descriptionField d = .error (.validationError m) := by
  by_cases h0 : d = ""
  · exact ⟨"String should have at least 1 character", by simp [descriptionField, h0]⟩
  · refine ⟨"Task description cannot be empty or whitespace-only", ?_⟩
    simp [descriptionField, Task.validate_description,
      str_ne_empty_length h0, h0, h]

theorem Task.build_eq_ok {now : DateTime} {idv d : String}
    {comp : Option Bool} {created : Option DateTime} (h : pyStrip d ≠ "") :
    Task.build now idv d comp created =
      .ok ⟨idv, pyStrip d, comp.getD false, created.getD now⟩ := by
  simp [Task.build, descriptionField_ok h]

theorem Task.build_ok_inv {now : DateTime} {idv d : String}
    {comp : Option Bool} {created : Option DateTime} {t : Task}
    (h : Task.build now idv d comp created = .ok t) :
    t.description = pyStrip d ∧ pyStrip d ≠ "" := by
  by_cases hs : pyStrip d = ""
  · obtain ⟨m, hm⟩ := descriptionField_error hs
    rw [Task.build, hm] at h
    simp at h
  · rw [Task.build_eq_ok hs] at h
    simp only [Except.ok.injEq] at h
    rw [← h]
    exact ⟨rfl, hs⟩

theorem create_task_eq_ok {r : Nat} {now : DateTime} {d : String}
    (h : pyStrip d ≠ "") :
    create_task r now d = .ok ⟨generate_task_id r, pyStrip d, false, now⟩ := by
  simp [create_task, Task.build_eq_ok h, Option.getD]

theorem taskFromKwargs_ok_inv {now : DateTime} {data : Dict} {t : Task}
    (h : taskFromKwargs now data = .ok t) :
    t.description = pyStrip t.description ∧ t.description ≠ "" := by
  unfold taskFromKwargs at h
  repeat' split at h
  all_goals try exact absurd h (by simp)
  next =>
    obtain ⟨hd, hs⟩ := Task.build_ok_inv h
    refine ⟨?_, ?_⟩
    · rw [hd, pyStrip_idem]
    · rw [hd]
      exact hs

theorem Dict.get_set_self (d : Dict) (k : String) (v : PyVal) :
    (d.set k v).get k = some v := by
  induction d with
  | nil => simp [Dict.set, Dict.get]
  | cons kv rest ih =>
    by_cases hk : kv.1 = k
    · simp [Dict.set, Dict.get, hk]
    · simp [Dict.set, Dict.get, hk, ih]

theorem Dict.get_set_ne (d : Dict) (k k' : String) (v : PyVal)
    (h : k' ≠ k) :
    (d.set k v).get k' = d.get k' := by
  have hkk : ¬ k = k' := fun h0 => h h0.symm
  induction d with
  | nil => simp [Dict.set, Dict.get, hkk]
  | cons kv rest ih =>
    by_cases hk : kv.1 = k
    · simp [Dict.set, Dict.get, hk, hkk]
    · simp [Dict.set, Dict.get, hk, ih]

theorem Dict.get_nil_none (k : String) : Dict.get ([] : Dict) k = Option.none := rfl

/-! ## The claims -/

/-- C1: for every string `d` that is non-empty after trimming,
`TaskManager.create_task(d)` succeeds and returns a `Task` whose
`description` equals `d.strip()`, whose `completed` is false, and whose
`id` is a non-empty string. -/
theorem claim_C1 (r : Nat) (now : DateTime) (d : String)
    (h : pyStrip d ≠ "") :
    ∃ t : Task, create_task r now d = .ok t ∧
      t.description = pyStrip d ∧ t.completed = false ∧ t.id ≠ "" :=
  ⟨⟨generate_task_id r, pyStrip d, false, now⟩,
    create_task_eq_ok h, rfl, rfl, generate_task_id_ne_empty r⟩

/-- Witness for C1 at `d = "  Buy milk  "`. -/
theorem claim_C1_witness :
    ∃ t : Task, create_task 0 dt0 "  Buy milk  " = .ok t ∧
      t.description = pyStrip "  Buy milk  " ∧ t.completed = false ∧
      t.id ≠ "" :=
  claim_C1 0 dt0 "  Buy milk  " (by decide)

/-- C2: for every string `d` that is empty or whitespace-only, both
`TaskManager.create_task(d)` and direct `Task` construction with
description `d` fail with a `ValidationError` (the distinct error kind)
and never produce a `Task`. -/
theorem claim_C2 (r : Nat) (now : DateTime) (d : String)
    (h : pyStrip d = "") :
    (∃ m, create_task r now d = .error (.validationError m)) ∧
    (∀ (idv : String) (comp : Option Bool) (created : Option DateTime),
      ∃ m, Task.build now idv d comp created = .error (.validationError m)) ∧
    (∀ t : Task, create_task r now d ≠ .ok t) := by
  obtain ⟨m, hm⟩ := descriptionField_error h
  refine ⟨⟨m, ?_⟩, fun idv comp created => ⟨m, ?_⟩, fun t ht => ?_⟩
  · simp [create_task, Task.build, hm]
  · simp [Task.build, hm]
  · rw [create_task, Task.build, hm] at ht
    simp at ht

/-- Witness for C2 at `d = "   "`. -/
theorem claim_C2_witness :
    (∃ m, create_task 0 dt0 "   " = .error (.validationError m)) ∧
    (∀ (idv : String) (comp : Option Bool) (created : Option DateTime),
      ∃ m, Task.build dt0 idv "   " comp created =
        .error (.validationError m)) ∧
    (∀ t : Task, create_task 0 dt0 "   " ≠ .ok t) :=
  claim_C2 0 dt0 "   " (by decide)

/-- The `Task.build` success invariant shared by every construction
path. -/
theorem build_invariant {now : DateTime} {idv d : String}
    {comp : Option Bool} {created : Option DateTime} {t : Task}
    (h : Task.build now idv d comp created = .ok t) :
    pyStrip t.description = t.description ∧ t.description ≠ "" := by
  obtain ⟨hd, hs⟩ := Task.build_ok_inv h
  constructor
  · rw [hd, pyStrip_idem]
  · rw [hd]
    exact hs

/-- C3: for every valid `Task` `t` (description stored trimmed and
non-empty, timestamp in `datetime`'s ranges), `to_dict` produces a
mapping with exactly the keys `id`, `description`, `completed`,
`created_at`, with the timestamp as an ISO-8601 string, and
`Task.from_dict(t.to_dict())` reconstructs `t` exactly — so `id`,
`description` and `completed` agree and `created_at` agrees within one
second, `to_dict` being inverted by `from_dict`. -/
theorem claim_C3 (now : DateTime) (t : Task)
    (hdesc : pyStrip t.description = t.description)
    (hne : t.description ≠ "")
    (hvalid : t.created_at.valid = true) :
    List.map Prod.fst (Task.to_dict t) =
      ["id", "description", "completed", "created_at"] ∧
    (Task.to_dict t).get "created_at" =
      some (.str t.created_at.isoformat) ∧
    (Task.from_dict now (Task.to_dict t)).1 = .ok t := by
  have hps : pyStrip t.description ≠ "" := by
    rw [hdesc]
    exact hne
  refine ⟨rfl, rfl, ?_⟩
  simp [Task.from_dict, Task.to_dict, Dict.get, Dict.set,
    fromisoformat_isoformat _ hvalid, taskFromKwargs, readCompleted,
    readCreatedAt, Task.build_eq_ok hps, hdesc]

/-- Witness for C3 at a concrete valid task. -/
theorem claim_C3_witness :
    List.map Prod.fst (Task.to_dict ⟨"a", "Buy milk", false, dt0⟩) =
      ["id", "description", "completed", "created_at"] ∧
    (Task.to_dict ⟨"a", "Buy milk", false, dt0⟩).get "created_at" =
      some (.str (dt0.isoformat)) ∧
    (Task.from_dict dt0 (Task.to_dict ⟨"a", "Buy milk", false, dt0⟩)).1 =
      .ok ⟨"a", "Buy milk", false, dt0⟩ :=
  claim_C3 dt0 ⟨"a", "Buy milk", false, dt0⟩ (by decide) (by decide) (by decide)

/-- C4: the `Task` invariant — on every construction path (direct
pydantic construction, `create_task`, `from_dict`) a successfully
constructed task has a description that is non-empty and equal to its
own trim; no task with an empty or whitespace-only description can be
produced. -/
theorem claim_C4 (now : DateTime) :
    (∀ (r : Nat) (d : String) (t : Task),
      create_task r now d = .ok t →
        pyStrip t.description = t.description ∧ t.description ≠ "") ∧
    (∀ (idv d : String) (comp : Option Bool) (created : Option DateTime)
        (t : Task),
      Task.build now idv d comp created = .ok t →
        pyStrip t.description = t.description ∧ t.description ≠ "") ∧
    (∀ (data : Dict) (t : Task),
      (Task.from_dict now data).1 = .ok t →
        pyStrip t.description = t.description ∧ t.description ≠ "") := by
  refine ⟨fun r d t h => build_invariant h, fun idv d comp created t h =>
    build_invariant h, fun data t h => ?_⟩
  unfold Task.from_dict at h
  repeat' split at h
  all_goals first
    | exact ⟨(taskFromKwargs_ok_inv h).1.symm, (taskFromKwargs_ok_inv h).2⟩
    | simp at h

/-- Witness for C4 via `create_task` on `" hi "`. -/
theorem claim_C4_witness :
    pyStrip (Task.mk (generate_task_id 0) "hi" false dt0).description =
      (Task.mk (generate_task_id 0) "hi" false dt0).description ∧
    (Task.mk (generate_task_id 0) "hi" false dt0).description ≠ "" :=
  (claim_C4 dt0).1 0 " hi " ⟨generate_task_id 0, "hi", false, dt0⟩ rfl

/-- C10 (implicit): `Task.from_dict` mutates its argument — when the
input dictionary's `created_at` value is a string, the parsed datetime
is written back into that dictionary before the task is constructed
(the construction reads the mutated dictionary), and every other key is
left unchanged. -/
theorem claim_C10 (now : DateTime) (data : Dict) (s : String)
    (v : DateTime)
    (hs : data.get "created_at" = some (.str s))
    (hv : fromisoformat s = some v) :
    (Task.from_dict now data).2 = data.set "created_at" (.dt v) ∧
    (Task.from_dict now data).1 =
      taskFromKwargs now (data.set "created_at" (.dt v)) ∧
    (data.set "created_at" (.dt v)).get "created_at" = some (.dt v) ∧
    (∀ k, k ≠ "created_at" →
      (data.set "created_at" (.dt v)).get k = data.get k) := by
  refine ⟨?_, ?_, Dict.get_set_self data _ _,
    fun k hk => Dict.get_set_ne data _ k _ hk⟩
  · simp [Task.from_dict, hs, hv]
  · simp [Task.from_dict, hs, hv]

/-- Witness for C10 at a concrete dictionary. -/
theorem claim_C10_witness :
    (Task.from_dict dt0 [("id", PyVal.str "a"),
        ("created_at", PyVal.str "2024-01-02T03:04:05")]).2 =
      Dict.set [("id", PyVal.str "a"),
        ("created_at", PyVal.str "2024-01-02T03:04:05")]
        "created_at" (.dt dt0) ∧
    (Task.from_dict dt0 [("id", PyVal.str "a"),
        ("created_at", PyVal.str "2024-01-02T03:04:05")]).1 =
      taskFromKwargs dt0 (Dict.set [("id", PyVal.str "a"),
        ("created_at", PyVal.str "2024-01-02T03:04:05")]
        "created_at" (.dt dt0)) ∧
    (Dict.set [("id", PyVal.str "a"),
        ("created_at", PyVal.str "2024-01-02T03:04:05")]
        "created_at" (.dt dt0)).get "created_at" = some (.dt dt0) ∧
    (∀ k, k ≠ "created_at" →
      (Dict.set [("id", PyVal.str "a"),
        ("created_at", PyVal.str "2024-01-02T03:04:05")]
        "created_at" (.dt dt0)).get k =
      Dict.get [("id", PyVal.str "a"),
        ("created_at", PyVal.str "2024-01-02T03:04:05")] k) :=
  claim_C10 dt0 [("id", PyVal.str "a"),
    ("created_at", PyVal.str "2024-01-02T03:04:05")] "2024-01-02T03:04:05"
    dt0 rfl rfl

/-- C5: on the JSON branch of POST `/api/tasks`, a JSON body whose
`description` key holds a string that is non-empty after trimming gets
HTTP 201 with the serialized task: the `description` of the response is
the trimmed input and `completed` is false. -/
theorem claim_C5 (r : Nat) (now : DateTime) (fd : Option String)
    (data : Dict) (d : String)
    (hdata : data.get "description" = some (.str d))
    (hd : pyStrip d ≠ "") :
    create_task_route true true (some data) fd r now =
      ⟨201, .json (Task.to_dict ⟨generate_task_id r, pyStrip d, false, now⟩)⟩ ∧
    (Task.to_dict ⟨generate_task_id r, pyStrip d, false, now⟩).get
      "description" = some (.str (pyStrip d)) ∧
    (Task.to_dict ⟨generate_task_id r, pyStrip d, false, now⟩).get
      "completed" = some (.bool false) := by
  have hne : data ≠ ([] : Dict) := by
    intro h0
    rw [h0] at hdata
    simp [Dict.get] at hdata
  refine ⟨?_, rfl, rfl⟩
  simp [create_task_route, hne, hdata, hd, create_task_eq_ok hd]

/-- Witness for C5: body `{"description": "  Buy milk  "}`. -/
theorem claim_C5_witness :
    create_task_route true true
        (some [("description", PyVal.str "  Buy milk  ")]) Option.none 0 dt0 =
      ⟨201, .json (Task.to_dict
        ⟨generate_task_id 0, pyStrip "  Buy milk  ", false, dt0⟩)⟩ ∧
    (Task.to_dict ⟨generate_task_id 0, pyStrip "  Buy milk  ", false,
      dt0⟩).get "description" = some (.str (pyStrip "  Buy milk  ")) ∧
    (Task.to_dict ⟨generate_task_id 0, pyStrip "  Buy milk  ", false,
      dt0⟩).get "completed" = some (.bool false) :=
  claim_C5 0 dt0 Option.none [("description", PyVal.str "  Buy milk  ")]
    "  Buy milk  " rfl (by decide)

/-- Counterexample to C6: POST `/api/tasks` with JSON `{}` yields 400
with the generic body-missing message `"Request body is required"` — the
empty object is falsy under Python's `if not data:` check — not the
field-specific `"Description field is required"` the claim states. -/
theorem claim_C6_counterexample :
    create_task_route true true (some ([] : Dict)) Option.none 0 dt0 =
      ⟨400, .json [("error", .str "Request body is required")]⟩ ∧
    (⟨400, .json [("error", .str "Request body is required")]⟩ : Response) ≠
      ⟨400, .json [("error", .str "Description field is required")]⟩ :=
  ⟨rfl, by decide⟩

/-- C6 as amended: POST `/api/tasks` with JSON `{}` responds 400 with
`{"error": "Request body is required"}` (the empty object is treated as
a missing body); the field-specific `"Description field is required"`
message is returned exactly when the body is a non-empty object lacking
the `description` key. -/
theorem claim_C6 (r : Nat) (now : DateTime) (fd : Option String) :
    create_task_route true true (some ([] : Dict)) fd r now =
      ⟨400, .json [("error", .str "Request body is required")]⟩ ∧
    (∀ data : Dict, data ≠ [] → data.get "description" = Option.none →
      create_task_route true true (some data) fd r now =
        ⟨400, .json [("error", .str "Description field is required")]⟩) := by
  constructor
  · rfl
  · intro data h0 h1
    simp [create_task_route, h0, h1]

/-- Witness for C6 (amended) at a non-empty body without
`description`. -/
theorem claim_C6_witness :
    create_task_route true true (some [("x", PyVal.bool true)])
        Option.none 0 dt0 =
      ⟨400, .json [("error", .str "Description field is required")]⟩ :=
  (claim_C6 0 dt0 Option.none).2 [("x", PyVal.bool true)] (by decide) rfl

/-- Counterexample to C7: the identifier `" "` is non-empty, and the
body maps `completed` to a boolean, yet the handler answers 400 (`Task
ID is required`), not the 200 echo the claim states for every non-empty
identifier. -/
theorem claim_C7_counterexample :
    update_task_route " " true (some [("completed", PyVal.bool true)]) =
      ⟨400, .json [("error", .str "Task ID is required")]⟩ ∧
    update_task_route " " true (some [("completed", PyVal.bool true)]) ≠
      ⟨200, .json [("id", .str " "), ("completed", .bool true),
        ("message", .str "Task updated successfully")]⟩ :=
  ⟨rfl, by decide⟩

/-- C7 as amended: for every identifier that is non-empty after
trimming and a JSON body, PUT `/api/tasks/<id>` echoes
`{"id", "completed", "message"}` with HTTP 200 when `completed` is a
boolean, and answers 400 when `completed` is missing or not a boolean;
no stored task exists to be looked up or changed. -/
theorem claim_C7 (task_id : String) (data : Dict)
    (hid : pyStrip task_id ≠ "") :
    (∀ b : Bool, data.get "completed" = some (.bool b) →
      update_task_route task_id true (some data) =
        ⟨200, .json [("id", .str task_id), ("completed", .bool b),
          ("message", .str "Task updated successfully")]⟩) ∧
    (data.get "completed" = Option.none →
      (update_task_route task_id true (some data)).status = 400) ∧
    (∀ v, data.get "completed" = some v → (∀ b : Bool, v ≠ .bool b) →
      (update_task_route task_id true (some data)).status = 400) := by
  have hne : task_id ≠ "" := pyStrip_ne_empty_ne hid
  refine ⟨fun b hb => ?_, fun hnone => ?_, fun v hv hnb => ?_⟩
  · have hd : data ≠ ([] : Dict) := by
      intro h0
      rw [h0] at hb
      simp [Dict.get] at hb
    simp [update_task_route, hne, hid, hd, hb]
  · by_cases hd : data = ([] : Dict)
    · simp [update_task_route, hne, hid, hd]
    · simp [update_task_route, hne, hid, hd, hnone]
  · have hd : data ≠ ([] : Dict) := by
      intro h0
      rw [h0] at hv
      simp [Dict.get] at hv
    cases v with
    | str s => simp [update_task_route, hne, hid, hd, hv]
    | bool b => exact absurd rfl (hnb b)
    | dt d => simp [update_task_route, hne, hid, hd, hv]
    | int n => simp [update_task_route, hne, hid, hd, hv]
    | none => simp [update_task_route, hne, hid, hd, hv]

/-- Witness for C7 (amended): `PUT /api/tasks/abc123` with
`{"completed": true}`. -/
theorem claim_C7_witness :
    update_task_route "abc123" true (some [("completed", PyVal.bool true)]) =
      ⟨200, .json [("id", .str "abc123"), ("completed", .bool true),
        ("message", .str "Task updated successfully")]⟩ :=
  (claim_C7 "abc123" [("completed", PyVal.bool true)] (by decide)).1 true rfl

/-- C8: DELETE `/api/tasks/<id>` answers 200 echoing the id (no store
exists, so nothing is deleted) when the identifier is non-empty after
trimming, and 400 when the identifier trims to empty (in particular for
a whitespace-only identifier). -/
theorem claim_C8 (task_id : String) :
    (pyStrip task_id ≠ "" →
      delete_task_route task_id =
        ⟨200, .json [("id", .str task_id),
          ("message", .str "Task deleted successfully")]⟩) ∧
    (pyStrip task_id = "" →
      delete_task_route task_id =
        ⟨400, .json [("error", .str "Task ID is required")]⟩) := by
  constructor
  · intro h
    have hne := pyStrip_ne_empty_ne h
    simp [delete_task_route, h, hne]
  · intro h
    simp [delete_task_route, h]

/-- Witness for C8 at `"abc123"` and at the whitespace-only `" "`. -/
theorem claim_C8_witness :
    delete_task_route "abc123" =
      ⟨200, .json [("id", .str "abc123"),
        ("message", .str "Task deleted successfully")]⟩ ∧
    delete_task_route " " =
      ⟨400, .json [("error", .str "Task ID is required")]⟩ :=
  ⟨(claim_C8 "abc123").1 (by decide), (claim_C8 " ").2 (by decide)⟩

end TodoApp
